import Mathlib

/-!
# Pizza store backend: shallow embedding and verification

A shallow embedding of the order pricing and fulfillment pipeline of the
pizza-store backend (catalog, cart, promotions, checkout, inventory ledger),
translated from the Python source under `pizza_store/` (Django + graphene).

Conventions of the embedding:
* `Decimal` money amounts become `ℚ` (all arithmetic used by the code —
  addition, multiplication, `min`, division by 100 — is exact on the
  decimal values involved, so `ℚ` is faithful);
* timestamps become `ℤ` and "now" is threaded explicitly where the code
  reads `timezone.now()` / `datetime.now()`;
* database rows become structures, tables become lists, foreign keys become
  ids looked up with `List.find?`;
* Python truthiness on optional numeric fields (`if self.usage_limit:`,
  `if delivery_fee:` …) is modelled explicitly: `none` and `some 0` are both
  falsy;
* GraphQL mutations that raise `GraphQLError` become functions into
  `Except String _` (or a state-and-result pair where the net database
  effect matters).
-/

namespace PizzaStore

/-! ## Catalog data model (products/models.py) -/

/-- A topping row (`products.models.Topping`). -/
structure Topping where
  id : ℕ
  name : String
  price : ℚ
deriving DecidableEq

/-- A size row (`products.models.Size`); `price_modifier` may be negative. -/
structure Size where
  id : ℕ
  name : String
  price_modifier : ℚ
deriving DecidableEq

/-- An included-item row (`products.models.IncludedItem`), bundled in combos. -/
structure IncludedItem where
  id : ℕ
  name : String
deriving DecidableEq

/-- A product row (`products.models.Product`), restricted to the fields the
pricing/checkout/inventory pipeline reads.  Many-to-many relations
(`available_sizes`, `available_toppings`) are kept as id lists, and
`included_items` as the embedded rows. -/
structure Product where
  id : ℕ
  name : String
  base_price : ℚ
  sale_price : Option ℚ := none
  sale_start_date : Option ℤ := none
  sale_end_date : Option ℤ := none
  is_available : Bool := true
  is_combo : Bool := false
  included_items : List IncludedItem := []
  track_inventory : Bool := false
  reorder_level : ℤ := 10
  available_sizes : List ℕ := []
  available_toppings : List ℕ := []
deriving DecidableEq

/-- Python's `str.lower` / Django's `__iexact` lowercasing, written over the
character list so that it evaluates definitionally. -/
def lowerStr (s : String) : String := ⟨s.data.map Char.toLower⟩

/-- Python truthiness of an optional `Decimal` field: `None` and `0` are falsy. -/
def optQTruthy : Option ℚ → Bool
  | none => false
  | some x => x != 0

/-- Python truthiness of an optional non-negative integer field. -/
def optNatTruthy : Option ℕ → Bool
  | none => false
  | some n => n != 0

/-- `Product.is_on_sale` (products/models.py): a sale price is active when it is
set and truthy and `now` is inside the (open-ended) sale window. -/
def Product.is_on_sale (p : Product) (now : ℤ) : Bool :=
  if !optQTruthy p.sale_price then false
  else if (match p.sale_start_date with | some s => decide (now < s) | none => false) then false
  else if (match p.sale_end_date with | some e => decide (e < now) | none => false) then false
  else true

/-- `Product.get_current_base_price`: sale price when on sale, else base price. -/
def Product.get_current_base_price (p : Product) (now : ℤ) : ℚ :=
  if p.is_on_sale now then p.sale_price.getD p.base_price else p.base_price

/-! ## Cart data model (cart/models.py) and helpers (cart/utils.py) -/

/-- One entry of the `selected_toppings` JSON list: the dicts produced by
`format_toppings_for_storage` (`{'id':…, 'name':…, 'price':…}`). -/
structure ToppingSnapshot where
  id : ℕ
  name : String
  price : ℚ
deriving DecidableEq

/-- One entry of the `selected_included_items` JSON list
(`{'id':…, 'name':…}`, produced by `format_included_items_for_storage`). -/
structure IncludedItemSnapshot where
  id : ℕ
  name : String
deriving DecidableEq

/-- A cart line (`cart.models.CartItem`). -/
structure CartItem where
  id : ℕ
  product_id : ℕ
  size : Option Size
  quantity : ℕ
  selected_toppings : List ToppingSnapshot
  unit_price : ℚ
  include_combo_items : Bool
  selected_included_items : List IncludedItemSnapshot
deriving DecidableEq

/-- `CartItem.get_subtotal`: `(unit_price + toppings_total) * quantity`. -/
def CartItem.get_subtotal (item : CartItem) : ℚ :=
  (item.unit_price + (item.selected_toppings.map (·.price)).sum) * item.quantity

/-- `Cart.get_total`: sum of the line subtotals (`0` for an empty cart). -/
def cart_get_total (items : List CartItem) : ℚ :=
  (items.map CartItem.get_subtotal).sum

/-- The catalog tables a cart/checkout mutation consults. -/
structure CatalogDB where
  products : List Product
  sizes : List Size
  toppings : List Topping
deriving DecidableEq

/-- `format_toppings_for_storage` (cart/utils.py): turn a list of topping ids
into snapshot dicts, silently skipping ids that do not resolve. -/
def format_toppings_for_storage (toppings_db : List Topping) (topping_ids : List ℕ) :
    List ToppingSnapshot :=
  topping_ids.filterMap fun tid =>
    (toppings_db.find? (fun t => t.id == tid)).map fun t =>
      { id := t.id, name := t.name, price := t.price }

/-- `calculate_item_price` (cart/utils.py) as called from the cart mutations:
current base price, plus the size modifier when the size is in the product's
allowed set, plus the price of every formatted topping dict.  Note that the
topping prices are folded into the returned unit price. -/
def calculate_item_price (now : ℤ) (product : Product) (size : Option Size)
    (toppings : List ToppingSnapshot) : ℚ :=
  let price := product.get_current_base_price now
  let price :=
    match size with
    | some s => if product.available_sizes.contains s.id then price + s.price_modifier else price
    | none => price
  price + (toppings.map (·.price)).sum

/-- `toppings_match` (cart/utils.py): both empty, or the sorted id lists agree. -/
def toppings_match (toppings1 toppings2 : List ToppingSnapshot) : Bool :=
  match toppings1, toppings2 with
  | [], [] => true
  | [], _ :: _ => false
  | _ :: _, [] => false
  | t1, t2 =>
      (List.insertionSort (· ≤ ·) (t1.map (·.id)))
        == (List.insertionSort (· ≤ ·) (t2.map (·.id)))

/-- `find_matching_cart_item` (cart/utils.py): first line of the same product
with the same size id, matching topping id set, and — for combo products —
the same combo choice.  The incoming toppings are re-normalised through
`format_toppings_for_storage` (which resolves them again by id). -/
def find_matching_cart_item (toppings_db : List Topping) (cart_items : List CartItem)
    (product : Product) (size : Option Size) (toppings : List ToppingSnapshot)
    (include_combo_items : Bool) : Option CartItem :=
  let normalized_toppings :=
    if toppings.isEmpty then []
    else format_toppings_for_storage toppings_db (toppings.map (·.id))
  (cart_items.filter (fun item => item.product_id == product.id)).find? fun item =>
    (item.size.map (·.id) == size.map (·.id)) &&
    toppings_match item.selected_toppings normalized_toppings &&
    (!product.is_combo || (item.include_combo_items == include_combo_items))

/-- `format_included_items_for_storage` (cart/utils.py). -/
def format_included_items_for_storage (product : Product) : List IncludedItemSnapshot :=
  if !product.is_combo then []
  else product.included_items.map fun i => { id := i.id, name := i.name }

/-! ## AddToCart mutation (cart/schema.py) -/

/-- The payload of a successful `AddToCart` mutation: the new cart contents and
the created or updated line. -/
structure AddToCartResult where
  cart_items : List CartItem
  cart_item : CartItem
  message : String
deriving DecidableEq

/-- `AddToCart.mutate` (cart/schema.py).  `next_item_id` stands for the primary
key the database would assign to a newly created line.  The topping
re-verification loop of the source re-fetches each formatted topping by id;
since formatted toppings only contain ids that resolve, only the
availability check can fail, which is what is modelled. -/
def add_to_cart (db : CatalogDB) (now : ℤ) (cart_items : List CartItem)
    (next_item_id : ℕ) (product_id : ℕ) (quantity : ℕ) (size_id : Option ℕ)
    (topping_ids : List ℕ) (include_combo_items : Bool) :
    Except String AddToCartResult :=
  match db.products.find? (fun p => p.id == product_id) with
  | none => .error "Product not found"
  | some product =>
    if !product.is_available then .error "Product is not available"
    else
      let size_result : Except String (Option Size) :=
        match size_id with
        | none => .ok none
        | some sid =>
          match db.sizes.find? (fun s => s.id == sid) with
          | none => .error "Size not found"
          | some s =>
            if product.available_sizes.contains s.id then .ok (some s)
            else .error ("Size " ++ s.name ++ " is not available for this product")
      match size_result with
      | .error e => .error e
      | .ok size =>
        let formatted_toppings := format_toppings_for_storage db.toppings topping_ids
        match formatted_toppings.find? (fun t => !product.available_toppings.contains t.id) with
        | some t => .error ("Topping " ++ t.name ++ " is not available for this product")
        | none =>
          let include_combo :=
            if include_combo_items && !product.is_combo then false else include_combo_items
          let unit_price := calculate_item_price now product size formatted_toppings
          match find_matching_cart_item db.toppings cart_items product size
              formatted_toppings include_combo with
          | some existing_item =>
            let updated_item : CartItem :=
              { existing_item with
                quantity := existing_item.quantity + quantity
                unit_price := unit_price }
            .ok { cart_items :=
                    cart_items.map fun it => if it.id == existing_item.id then updated_item else it
                  cart_item := updated_item
                  message := "Quantity updated. Total quantity: " ++ toString updated_item.quantity }
          | none =>
            let included_items_snapshot :=
              if include_combo && product.is_combo then format_included_items_for_storage product
              else []
            let new_item : CartItem :=
              { id := next_item_id
                product_id := product.id
                size := size
                quantity := quantity
                selected_toppings := formatted_toppings
                unit_price := unit_price
                include_combo_items := include_combo
                selected_included_items := included_items_snapshot }
            .ok { cart_items := cart_items ++ [new_item]
                  cart_item := new_item
                  message :=
                    if include_combo then "Item added to cart as combo successfully"
                    else "Item added to cart successfully" }

/-! ## The concrete pricing scenario of §8 (claim C1) -/

/-- The catalog of the spec's concrete scenario: a $10 product, a "Large" size
with delta +$3 in the product's allowed-size set, and a +$2 topping in the
product's allowed-topping set. -/
def scenarioDB : CatalogDB :=
  { products := [{ id := 1, name := "Margherita", base_price := 10,
                   available_sizes := [1], available_toppings := [1] }]
    sizes := [{ id := 1, name := "Large", price_modifier := 3 }]
    toppings := [{ id := 1, name := "Extra Cheese", price := 2 }] }

/-- First add-to-cart of the scenario: quantity 2, Large, one topping. -/
def scenarioAdd1 : Except String AddToCartResult :=
  add_to_cart scenarioDB 0 [] 1 1 2 (some 1) [1] false

/-- The cart contents after the first add. -/
def scenarioItems1 : List CartItem :=
  match scenarioAdd1 with
  | .ok r => r.cart_items
  | .error _ => []

/-- Second add-to-cart of the scenario: the identical configuration, quantity 1. -/
def scenarioAdd2 : Except String AddToCartResult :=
  add_to_cart scenarioDB 0 scenarioItems1 2 1 1 (some 1) [1] false

/-! ## Promotions (team/models.py) -/

/-- `Promotion.DiscountType` choices. -/
inductive DiscountType
  | percentage
  | fixed
  | free_delivery
deriving DecidableEq

/-- A promotion row (`team.models.Promotion`).  `applicable_products` is the
many-to-many id set; `valid_from`/`valid_until` are timestamps. -/
structure Promotion where
  id : ℕ
  code : String
  discount_type : DiscountType
  discount_value : ℚ
  applicable_products : List ℕ := []
  apply_to_base_price : Bool := true
  apply_to_toppings : Bool := false
  apply_to_included_items : Bool := false
  apply_to_entire_order : Bool := true
  minimum_order_amount : Option ℚ := none
  maximum_discount : Option ℚ := none
  usage_limit : Option ℕ := none
  times_used : ℕ := 0
  is_active : Bool := true
  valid_from : ℤ
  valid_until : ℤ
deriving DecidableEq

/-- `Promotion.is_valid`: active, inside the validity window, and under the
usage limit (`if self.usage_limit and self.times_used >= self.usage_limit`,
with Python truthiness on the limit). -/
def Promotion.is_valid (p : Promotion) (now : ℤ) : Bool :=
  if !p.is_active then false
  else if now < p.valid_from || p.valid_until < now then false
  else if optNatTruthy p.usage_limit && p.usage_limit.getD 0 ≤ p.times_used then false
  else true

/-! ## Orders data model (orders/models.py) -/

/-- An order line snapshot (`orders.models.OrderItem`). -/
structure OrderItem where
  product_name : String
  product_id : ℕ
  is_combo : Bool
  included_items : List String
  size_name : Option String
  size_id : Option ℕ
  selected_toppings : List ToppingSnapshot
  unit_price : ℚ
  quantity : ℕ
  subtotal : ℚ
deriving DecidableEq

/-- An order row (`orders.models.Order`), with its owned items embedded and
restricted to the fields checkout writes. -/
structure Order where
  order_number : String
  order_type : String
  delivery_address : String
  subtotal : ℚ
  delivery_fee : ℚ
  discount_amount : ℚ
  discount_code : Option String
  total : ℚ
  status : String
  items : List OrderItem
deriving DecidableEq

/-- The per-item discountable amount of `Promotion.calculate_discount`'s
product-specific loop: items outside the applicable set contribute nothing;
otherwise base price (`unit_price * quantity`) when `apply_to_base_price`,
plus the topping prices times quantity when `apply_to_toppings` (the
`apply_to_included_items` branch of the source is a pass-through). -/
def Promotion.item_discountable (p : Promotion) (item : OrderItem) : ℚ :=
  if p.applicable_products.contains item.product_id then
    (if p.apply_to_base_price then item.unit_price * item.quantity else 0) +
    (if p.apply_to_toppings && !item.selected_toppings.isEmpty then
      (item.selected_toppings.map (·.price)).sum * item.quantity
    else 0)
  else 0

/-- Python truthiness of the `order_items` argument (`None` and `[]` falsy). -/
def optListTruthy {α : Type} : Option (List α) → Bool
  | some (_ :: _) => true
  | _ => false

/-- The `discountable_amount` computed by `Promotion.calculate_discount` for
the percentage/fixed kinds: restricted to applicable products when order
items were passed and the promotion is not order-wide (falling back to the
full subtotal when the applicable set is empty), the full subtotal
otherwise. -/
def Promotion.discountable_amount (p : Promotion) (order_subtotal : ℚ)
    (order_items : Option (List OrderItem)) : ℚ :=
  if optListTruthy order_items && !p.apply_to_entire_order then
    if p.applicable_products.isEmpty then order_subtotal
    else ((order_items.getD []).map p.item_discountable).sum
  else order_subtotal

/-- `Promotion.calculate_discount` (team/models.py): `0` when the promotion is
not valid or the subtotal is under the (truthy) minimum; the delivery fee for
`free_delivery`; otherwise the percentage (optionally capped) or fixed
(`min value base`) discount over `discountable_amount`. -/
def Promotion.calculate_discount (p : Promotion) (now : ℤ) (order_subtotal : ℚ)
    (delivery_fee : ℚ) (order_items : Option (List OrderItem)) : ℚ :=
  if !p.is_valid now then 0
  else if optQTruthy p.minimum_order_amount &&
      decide (order_subtotal < p.minimum_order_amount.getD 0) then 0
  else if p.discount_type == .free_delivery then delivery_fee
  else
    let discountable_amount := p.discountable_amount order_subtotal order_items
    match p.discount_type with
    | .percentage =>
      let discount := discountable_amount * (p.discount_value / 100)
      if optQTruthy p.maximum_discount then min discount (p.maximum_discount.getD 0)
      else discount
    | .fixed => min p.discount_value discountable_amount
    | .free_delivery => 0

/-! ## Public promotion validation query (team/schema.py) -/

/-- The `PromotionValidationResult` GraphQL type. -/
structure PromotionValidationResult where
  valid : Bool
  promotion : Option Promotion
  discount_amount : ℚ
  message : String
deriving DecidableEq

/-- `resolve_validate_promotion` (team/schema.py): look the code up
case-insensitively; when the promotion fails `is_valid` the failure message
is re-derived in the order not-yet-started, expired, usage-exhausted, with
"not active" as the fallback; then the minimum-order check; then the valid
result with the discount computed without order items. -/
def resolve_validate_promotion (promotions : List Promotion) (now : ℤ) (code : String)
    (subtotal : ℚ) (delivery_fee : Option ℚ) : PromotionValidationResult :=
  match promotions.find? (fun p => lowerStr p.code == lowerStr code) with
  | none =>
    { valid := false, promotion := none, discount_amount := 0
      message := "Invalid promotion code" }
  | some promotion =>
    if !promotion.is_valid now then
      let message :=
        if now < promotion.valid_from then "This promotion hasn't started yet"
        else if promotion.valid_until < now then "This promotion has expired"
        else if optNatTruthy promotion.usage_limit &&
            promotion.usage_limit.getD 0 ≤ promotion.times_used then
          "This promotion has reached its usage limit"
        else "This promotion is not active"
      { valid := false, promotion := some promotion, discount_amount := 0
        message := message }
    else if optQTruthy promotion.minimum_order_amount &&
        decide (subtotal < promotion.minimum_order_amount.getD 0) then
      { valid := false, promotion := some promotion, discount_amount := 0
        message := "Minimum order amount is $" ++ toString (promotion.minimum_order_amount.getD 0) }
    else
      let delivery := if optQTruthy delivery_fee then delivery_fee.getD 0 else 0
      let discount_amount := promotion.calculate_discount now subtotal delivery none
      { valid := true, promotion := some promotion, discount_amount := discount_amount
        message := "Code applied! You save $" ++ toString discount_amount }

/-! ## Inventory data model (inventory/models.py) -/

/-- `StockMovement.MovementType` choices (constant names as in the source). -/
inductive MovementType
  | SALE
  | ADJUSTMENT
  | RECEIPT
  | RETURN
  | DAMAGED
  | TRANSFER
deriving DecidableEq

/-- `StockAlert.AlertStatus` choices. -/
inductive AlertStatus
  | ACTIVE
  | ACKNOWLEDGED
  | RESOLVED
deriving DecidableEq

/-- A stock row (`inventory.models.StockItem`).  The database column is a
non-negative integer; the quantity is modelled in `ℤ` so that the clamping
performed by `adjust_stock` is what keeps it non-negative. -/
structure StockItem where
  product_id : ℕ
  quantity : ℤ
  reorder_level : ℤ
  reorder_quantity : ℤ
  last_restocked : Option ℤ
deriving DecidableEq

/-- An append-only ledger entry (`inventory.models.StockMovement`). -/
structure StockMovement where
  stock_product_id : ℕ
  movement_type : MovementType
  quantity_change : ℤ
  quantity_before : ℤ
  quantity_after : ℤ
  reference : String
  notes : String
deriving DecidableEq

/-- A low-stock alert row (`inventory.models.StockAlert`). -/
structure StockAlert where
  stock_product_id : ℕ
  status : AlertStatus
  message : String
  resolved_at : Option ℤ
deriving DecidableEq

/-! ## Checkout: CreateOrder mutation (orders/schema.py) -/

/-- The database state a checkout touches: the session's cart lines, the order
table, the promotion table, and the inventory tables (which `CreateOrder`
never writes). -/
structure StoreState where
  cart_items : List CartItem
  orders : List Order
  promotions : List Promotion
  stock_items : List StockItem
  stock_movements : List StockMovement
  stock_alerts : List StockAlert
deriving DecidableEq

/-- The `CreateOrderInput` fields the pricing pipeline reads. -/
structure CreateOrderInput where
  order_type : String
  delivery_address : String := ""
  delivery_fee : Option ℚ := none
  promotion_code : Option String := none
deriving DecidableEq

/-- The snapshot of one cart line into an `OrderItem`, as performed inside
`CreateOrder.mutate`: the item subtotal re-adds the topping prices to the
frozen unit price, and the name/combo/included-item fields are read from the
product row as it is *now* (not from the cart line's snapshots).  `none` when
the cart line's product id does not resolve (impossible under the foreign-key
integrity Django guarantees). -/
def order_item_of_cart_item (db : CatalogDB) (cart_item : CartItem) : Option OrderItem :=
  (db.products.find? (fun p => p.id == cart_item.product_id)).map fun product =>
    let toppings_total := (cart_item.selected_toppings.map (·.price)).sum
    { product_name := product.name
      product_id := product.id
      is_combo := product.is_combo
      included_items := product.included_items.map (·.name)
      size_name := cart_item.size.map (·.name)
      size_id := cart_item.size.map (·.id)
      selected_toppings := cart_item.selected_toppings
      unit_price := cart_item.unit_price
      quantity := cart_item.quantity
      subtotal := (cart_item.unit_price + toppings_total) * cart_item.quantity }

/-- The `Order.objects.create(...)` row of `CreateOrder.mutate`: discount not
yet applied, total provisionally `subtotal + delivery_fee`, status pending. -/
def initial_order (order_number order_type delivery_address : String)
    (subtotal delivery_fee : ℚ) (order_items : List OrderItem) : Order :=
  { order_number := order_number
    order_type := order_type
    delivery_address := delivery_address
    subtotal := subtotal
    delivery_fee := delivery_fee
    discount_amount := 0
    discount_code := none
    total := subtotal + delivery_fee
    status := "pending"
    items := order_items }

/-- The `order.delete()` performed before raising on an invalid promotion:
remove the just-created order (its items cascade with it). -/
def delete_created_order (st1 : StoreState) (order_number : String) : StoreState :=
  { st1 with orders := st1.orders.filter (fun o => o.order_number != order_number) }

/-- The tail of `CreateOrder.mutate` once the promotion (if any) was accepted:
write the discount fields and final total onto the created order, persist the
updated promotion table, and clear the cart. -/
def create_order_commit (st1 : StoreState) (order_number : String) (order0 : Order)
    (subtotal delivery_fee discount_amount : ℚ) (discount_code : Option String)
    (promotions : List Promotion) : StoreState × Except String Order :=
  let total := subtotal + delivery_fee - discount_amount
  let final_order : Order :=
    { order0 with
      discount_amount := discount_amount
      discount_code := discount_code
      total := total }
  ({ st1 with
      orders := st1.orders.map fun o =>
        if o.order_number == order_number then final_order else o
      promotions := promotions
      cart_items := [] },
    .ok final_order)

/-- `CreateOrder.mutate` (orders/schema.py), as a state transformer: the
returned state is the net database state after the mutation, together with
the created order or the raised `GraphQLError` message.  The source first
creates the Order row and its OrderItems and *deletes them again* before
raising when the supplied promotion code is invalid; the deletion is modelled
literally (append, then filter the order number back out).  `order_number`
stands for the value of `generate_order_number()` — the caller's uniqueness
loop guarantees it is fresh.  `CreateOrder` performs no inventory writes. -/
def create_order (db : CatalogDB) (now : ℤ) (order_number : String)
    (st : StoreState) (input : CreateOrderInput) : StoreState × Except String Order :=
  if st.cart_items.isEmpty then
    (st, .error "Cart is empty. Add items to cart first.")
  else
    let order_type := lowerStr input.order_type
    if order_type != "delivery" && order_type != "pickup" then
      (st, .error "Order type must be delivery or pickup")
    else if order_type == "delivery" && input.delivery_address == "" then
      (st, .error "Delivery address is required for delivery orders")
    else
      match st.cart_items.mapM (order_item_of_cart_item db) with
      | none => (st, .error "Product not found")
      | some order_items =>
        let subtotal := cart_get_total st.cart_items
        let delivery_fee := if optQTruthy input.delivery_fee then input.delivery_fee.getD 0 else 0
        let delivery_fee := if order_type == "pickup" then 0 else delivery_fee
        let order0 : Order :=
          initial_order order_number order_type input.delivery_address subtotal delivery_fee
            order_items
        let st1 : StoreState := { st with orders := st.orders ++ [order0] }
        match input.promotion_code with
        | none => create_order_commit st1 order_number order0 subtotal delivery_fee 0 none
            st.promotions
        | some promotion_code =>
          if promotion_code == "" then
            create_order_commit st1 order_number order0 subtotal delivery_fee 0 none st.promotions
          else
            match st.promotions.find? (fun p => lowerStr p.code == lowerStr promotion_code) with
            | none => (delete_created_order st1 order_number, .error "Invalid promotion code")
            | some promotion =>
              if promotion.is_valid now then
                if optQTruthy promotion.minimum_order_amount &&
                    decide (subtotal < promotion.minimum_order_amount.getD 0) then
                  (delete_created_order st1 order_number,
                    .error ("Minimum order amount for this code is $" ++
                      toString (promotion.minimum_order_amount.getD 0)))
                else
                  let discount_amount :=
                    promotion.calculate_discount now subtotal delivery_fee (some order_items)
                  let promotions :=
                    st.promotions.map fun p =>
                      if p.id == promotion.id then { p with times_used := p.times_used + 1 } else p
                  create_order_commit st1 order_number order0 subtotal delivery_fee
                    discount_amount (some promotion.code) promotions
              else
                (delete_created_order st1 order_number,
                  .error "This promotion code is no longer valid")

/-! ## Inventory ledger operations (inventory/utils.py)

The adjustment helpers operate on one product's stock, so the state is the
product's `StockItem` together with its movement ledger and its alerts. -/

/-- The state of one product's inventory: its stock row, ledger, and alerts. -/
structure InventoryState where
  stock_item : StockItem
  movements : List StockMovement
  alerts : List StockAlert
deriving DecidableEq

/-- The fresh stock row `get_or_create_stock_item` creates for a tracked
product: quantity 0, the product's reorder level, reorder quantity 50. -/
def init_inventory (product_id : ℕ) (reorder_level : ℤ) : InventoryState :=
  { stock_item :=
      { product_id := product_id, quantity := 0, reorder_level := reorder_level
        reorder_quantity := 50, last_restocked := none }
    movements := []
    alerts := [] }

/-- `check_low_stock` (inventory/utils.py): when `is_low_stock`
(`quantity <= reorder_level`) and no ACTIVE alert exists, create one; when not
low, resolve every ACTIVE alert, stamping `resolved_at`. -/
def check_low_stock (now : ℤ) (ist : InventoryState) : InventoryState :=
  if ist.stock_item.quantity ≤ ist.stock_item.reorder_level then
    if (ist.alerts.find? (fun a => a.status == AlertStatus.ACTIVE)).isSome then ist
    else
      { ist with
        alerts := ist.alerts ++
          [{ stock_product_id := ist.stock_item.product_id
             status := AlertStatus.ACTIVE
             message := "low stock"
             resolved_at := none }] }
  else
    { ist with
      alerts := ist.alerts.map fun a =>
        if a.status == AlertStatus.ACTIVE then
          { a with status := AlertStatus.RESOLVED, resolved_at := some now }
        else a }

/-- `adjust_stock` (inventory/utils.py): no-op for untracked products;
otherwise clamp the new quantity at zero, append a movement recording
before/after and the signed change, stamp `last_restocked` on receipts,
update the stock row, and re-run the low-stock check. -/
def adjust_stock (now : ℤ) (track_inventory : Bool) (ist : InventoryState)
    (quantity_change : ℤ) (movement_type : MovementType) (reference : String)
    (notes : String) : InventoryState × Option StockMovement :=
  if !track_inventory then (ist, none)
  else
    let quantity_before := ist.stock_item.quantity
    let quantity_after := max 0 (quantity_before + quantity_change)
    let movement : StockMovement :=
      { stock_product_id := ist.stock_item.product_id
        movement_type := movement_type
        quantity_change := quantity_change
        quantity_before := quantity_before
        quantity_after := quantity_after
        reference := reference
        notes := notes }
    let stock_item :=
      { ist.stock_item with
        quantity := quantity_after
        last_restocked :=
          if movement_type == MovementType.RECEIPT then some now
          else ist.stock_item.last_restocked }
    let ist1 : InventoryState :=
      { stock_item := stock_item
        movements := ist.movements ++ [movement]
        alerts := ist.alerts }
    (check_low_stock now ist1, some movement)

/-- `sell_stock`: a sale of `quantity` units, referenced by the order number. -/
def sell_stock (now : ℤ) (track_inventory : Bool) (ist : InventoryState)
    (quantity : ℤ) (order_number : String) : InventoryState × Option StockMovement :=
  adjust_stock now track_inventory ist (-quantity) MovementType.SALE order_number
    ("Sold " ++ toString quantity ++ " units")

/-- `receive_stock`: a receipt of `quantity` units from a supplier. -/
def receive_stock (now : ℤ) (track_inventory : Bool) (ist : InventoryState)
    (quantity : ℤ) (notes : String) : InventoryState × Option StockMovement :=
  adjust_stock now track_inventory ist quantity MovementType.RECEIPT "" notes

/-- `return_stock`: a customer return of `quantity` units. -/
def return_stock (now : ℤ) (track_inventory : Bool) (ist : InventoryState)
    (quantity : ℤ) (reference : String) (notes : String) :
    InventoryState × Option StockMovement :=
  adjust_stock now track_inventory ist quantity MovementType.RETURN reference notes

/-- One call into the inventory helpers. -/
inductive StockOp
  | adjust (quantity_change : ℤ) (movement_type : MovementType)
      (reference : String) (notes : String)
  | sell (quantity : ℤ) (order_number : String)
  | receive (quantity : ℤ) (notes : String)
  | ret (quantity : ℤ) (reference : String) (notes : String)
deriving DecidableEq

/-- Execute one inventory call. -/
def apply_stock_op (now : ℤ) (track_inventory : Bool) (ist : InventoryState) :
    StockOp → InventoryState × Option StockMovement
  | .adjust qc mt ref nts => adjust_stock now track_inventory ist qc mt ref nts
  | .sell q onum => sell_stock now track_inventory ist q onum
  | .receive q nts => receive_stock now track_inventory ist q nts
  | .ret q ref nts => return_stock now track_inventory ist q ref nts

/-- Execute a sequence of inventory calls, keeping the final state. -/
def run_stock_ops (now : ℤ) (track_inventory : Bool) (ist : InventoryState)
    (ops : List StockOp) : InventoryState :=
  ops.foldl (fun s op => (apply_stock_op now track_inventory s op).1) ist

/-- The number of ACTIVE alerts in an inventory state. -/
def active_alert_count (ist : InventoryState) : ℕ :=
  (ist.alerts.filter (fun a => a.status == AlertStatus.ACTIVE)).length

/-! ## Concrete fixtures for the checkout claims -/

/-- Catalog with a single inventory-tracked product (for the stock-deduction
claim): no sizes, no toppings. -/
def trackedDB : CatalogDB :=
  { products := [{ id := 1, name := "Pepperoni", base_price := 12, track_inventory := true }]
    sizes := []
    toppings := [] }

/-- A cart holding 2 units of the tracked product at its frozen price. -/
def trackedCartItem : CartItem :=
  { id := 1, product_id := 1, size := none, quantity := 2, selected_toppings := []
    unit_price := 12, include_combo_items := false, selected_included_items := [] }

/-- Store state before the tracked-product checkout: 50 units on hand,
no ledger entries, no alerts, no promotions. -/
def trackedState : StoreState :=
  { cart_items := [trackedCartItem]
    orders := []
    promotions := []
    stock_items := [{ product_id := 1, quantity := 50, reorder_level := 10
                      reorder_quantity := 50, last_restocked := none }]
    stock_movements := []
    stock_alerts := [] }

/-- A plain pickup checkout with no promotion code. -/
def trackedInput : CreateOrderInput := { order_type := "pickup" }

/-- The tracked-product checkout run. -/
def trackedRun : StoreState × Except String Order :=
  create_order trackedDB 0 "ORD-20260101-AAAA" trackedState trackedInput

/-- The result record of the merging second add of the scenario (the fallback
of the `getD` is never reached). -/
def scenarioResult2 : AddToCartResult :=
  (scenarioAdd2.toOption).getD
    { cart_items := []
      cart_item :=
        { id := 0, product_id := 0, size := none, quantity := 0, selected_toppings := []
          unit_price := 0, include_combo_items := false, selected_included_items := [] }
      message := "" }

/-- A product-scoped promotion: 10% off, applicable only to product 1, not
order-wide, currently valid. -/
def scopedPromotion : Promotion :=
  { id := 1, code := "SCOPE10", discount_type := DiscountType.percentage
    discount_value := 10, applicable_products := [1], apply_to_entire_order := false
    valid_from := -100, valid_until := 100 }

/-- Catalog for the scoped-promotion checkout: two products, of which only
product 1 is in the promotion's applicable set. -/
def scopedDB : CatalogDB :=
  { products := [{ id := 1, name := "Pizza", base_price := 10 },
                 { id := 2, name := "Pasta", base_price := 20 }]
    sizes := []
    toppings := [] }

/-- Store state for the scoped-promotion checkout: one line of each product
(line subtotals 10 and 20, cart total 30). -/
def scopedState : StoreState :=
  { cart_items :=
      [{ id := 1, product_id := 1, size := none, quantity := 1, selected_toppings := []
         unit_price := 10, include_combo_items := false, selected_included_items := [] },
       { id := 2, product_id := 2, size := none, quantity := 1, selected_toppings := []
         unit_price := 20, include_combo_items := false, selected_included_items := [] }]
    orders := []
    promotions := [scopedPromotion]
    stock_items := []
    stock_movements := []
    stock_alerts := [] }

/-- Pickup checkout supplying the scoped promotion code. -/
def scopedInput : CreateOrderInput :=
  { order_type := "pickup", promotion_code := some "SCOPE10" }

/-- The scoped-promotion checkout run. -/
def scopedRun : StoreState × Except String Order :=
  create_order scopedDB 0 "ORD-20260101-BBBB" scopedState scopedInput

/-- The "discountable base" named by the discount-bounds claim: the delivery
fee for the free-delivery kind, otherwise the (possibly product-restricted)
`discountable_amount` the code computes. -/
def claimed_discount_base (p : Promotion) (subtotal delivery_fee : ℚ)
    (order_items : Option (List OrderItem)) : ℚ :=
  if p.discount_type == DiscountType.free_delivery then delivery_fee
  else p.discountable_amount subtotal order_items

/-- A currently-valid percentage promotion whose value exceeds 100%, used to
refute the claimed discount bound. -/
def overPromotion : Promotion :=
  { id := 1, code := "OVER150", discount_type := DiscountType.percentage
    discount_value := 150, valid_from := -100, valid_until := 100 }

/-- The spec's SAVE10 scenario promotion: 10% off with a $20 minimum and a $5
cap, currently valid. -/
def save10Promotion : Promotion :=
  { id := 1, code := "SAVE10", discount_type := DiscountType.percentage
    discount_value := 10, minimum_order_amount := some 20, maximum_discount := some 5
    valid_from := -100, valid_until := 100 }

/-- Catalog for the combo-snapshot scenario: a combo product whose included
items are *currently* one "Salad" (they were "Chips" when the cart line was
created). -/
def comboDB : CatalogDB :=
  { products := [{ id := 1, name := "Parma Combo", base_price := 25, is_combo := true
                   included_items := [{ id := 2, name := "Salad" }] }]
    sizes := []
    toppings := [] }

/-- Store state for the combo-snapshot scenario: one combo line whose
add-time included-items snapshot recorded "Chips". -/
def comboState : StoreState :=
  { cart_items :=
      [{ id := 1, product_id := 1, size := none, quantity := 1, selected_toppings := []
         unit_price := 25, include_combo_items := true
         selected_included_items := [{ id := 3, name := "Chips" }] }]
    orders := []
    promotions := []
    stock_items := []
    stock_movements := []
    stock_alerts := [] }

/-- The combo-snapshot checkout run (pickup, no promotion). -/
def comboRun : StoreState × Except String Order :=
  create_order comboDB 0 "ORD-20260101-CCCC" comboState { order_type := "pickup" }

/-- The order produced by the combo-snapshot checkout. -/
def comboOrder : Order :=
  (comboRun.2.toOption).getD
    { order_number := "", order_type := "", delivery_address := "", subtotal := 0
      delivery_fee := 0, discount_amount := 0, discount_code := none, total := 0
      status := "", items := [] }

/-- A promotion that is both inactive and not yet started, used to probe which
failure state the public validation query reports. -/
def inactiveFuturePromotion : Promotion :=
  { id := 1, code := "LATER", discount_type := DiscountType.fixed, discount_value := 5
    is_active := false, valid_from := 10, valid_until := 20 }

/-- The reported-state order of the public validation query as amended: after
the case-insensitive lookup, the failure states are derived in the order
not-yet-started → expired → usage-exhausted → inactive (fallback), then the
minimum-order check, then the valid result.  (Definition following the
amended claim's words, to be compared with `resolve_validate_promotion`.) -/
def validate_promotion_spec (promotions : List Promotion) (now : ℤ) (code : String)
    (subtotal : ℚ) (delivery_fee : Option ℚ) : PromotionValidationResult :=
  match promotions.find? (fun p => lowerStr p.code == lowerStr code) with
  | none =>
    { valid := false, promotion := none, discount_amount := 0
      message := "Invalid promotion code" }
  | some p =>
    if now < p.valid_from then
      { valid := false, promotion := some p, discount_amount := 0
        message := "This promotion hasn't started yet" }
    else if p.valid_until < now then
      { valid := false, promotion := some p, discount_amount := 0
        message := "This promotion has expired" }
    else if optNatTruthy p.usage_limit && p.usage_limit.getD 0 ≤ p.times_used then
      { valid := false, promotion := some p, discount_amount := 0
        message := "This promotion has reached its usage limit" }
    else if !p.is_active then
      { valid := false, promotion := some p, discount_amount := 0
        message := "This promotion is not active" }
    else if optQTruthy p.minimum_order_amount &&
        decide (subtotal < p.minimum_order_amount.getD 0) then
      { valid := false, promotion := some p, discount_amount := 0
        message := "Minimum order amount is $" ++ toString (p.minimum_order_amount.getD 0) }
    else
      let delivery := if optQTruthy delivery_fee then delivery_fee.getD 0 else 0
      let discount_amount := p.calculate_discount now subtotal delivery none
      { valid := true, promotion := some p, discount_amount := discount_amount
        message := "Code applied! You save $" ++ toString discount_amount }

end PizzaStore

namespace PizzaStore

/-!
## Claims

Each claim of the specification audit is settled by exactly one theorem below
(plus a witness for theorems with hypotheses, and a counterexample where the
claim fails on the code).
-/

/-- **C1** (evaluation at the claim's failing input).  In the spec's concrete
scenario — base price $10, allowed "Large" size delta +$3, one allowed topping
+$2, quantity 2 — the code freezes the unit price as 15.00 (toppings folded in
by `calculate_item_price`) and then `get_subtotal` adds the topping prices
again, so the line subtotal evaluates to 34.00, not the claimed 30.00.  Adding
the identical configuration with quantity 1 does merge into one line of
quantity 3, but its subtotal is 51.00, not the claimed 45.00. -/
theorem c1_scenario_line_subtotals :
    (match scenarioAdd1 with
     | .ok r => some (r.cart_items.length, r.cart_item.unit_price, r.cart_item.get_subtotal)
     | .error _ => none) = some (1, 15, 34) ∧
    (match scenarioAdd2 with
     | .ok r => some (r.cart_items.length, r.cart_item.quantity, r.cart_item.get_subtotal)
     | .error _ => none) = some (1, 3, 51) := by
  constructor <;>
    norm_num [scenarioAdd2, scenarioItems1, scenarioAdd1, scenarioDB, add_to_cart,
      format_toppings_for_storage, calculate_item_price, Product.get_current_base_price,
      Product.is_on_sale, optQTruthy, find_matching_cart_item, CartItem.get_subtotal,
      toppings_match, List.insertionSort, List.orderedInsert,
      List.filterMap_cons, List.filterMap_nil]

/-- **C2** (evaluation at the claim's failing input).  A checkout of a cart
holding 2 units of an inventory-tracked product succeeds, yet the resulting
state records no stock movement at all and leaves the stock row untouched:
`CreateOrder.mutate` never calls `sell_stock`, so no sale movement with the
item quantity and the order number as reference exists after checkout. -/
theorem c2_checkout_records_no_stock_movement :
    ((trackedDB.products.find? (fun p => p.id == 1)).map Product.track_inventory
      = some true) ∧
    (trackedRun.2.toOption.map fun o => (o.order_number, o.total))
      = some ("ORD-20260101-AAAA", 24) ∧
    trackedRun.1.stock_movements = [] ∧
    trackedRun.1.stock_items = trackedState.stock_items := by
  refine ⟨by decide, ?_, ?_, ?_⟩ <;>
    norm_num +decide [trackedRun, trackedState, trackedDB, trackedInput, trackedCartItem,
      create_order, initial_order, create_order_commit, delete_created_order,
      order_item_of_cart_item, cart_get_total, CartItem.get_subtotal,
      lowerStr, optQTruthy, List.mapM, List.mapM.loop, Except.toOption]

/-- **C9**.  The public validation query and checkout disagree for a
product-scoped promotion: for the 10%-off promotion restricted to product 1
(not order-wide) and a cart of one unit of product 1 ($10) and one of product 2
($20), `resolve_validate_promotion` reports a discount of 3.00 (it calls
`calculate_discount` without order items, so the base falls back to the full
subtotal 30), while `CreateOrder` applies a discount of 1.00 (it passes the
materialized OrderItems, restricting the base to the applicable product's
10.00). -/
theorem c9_validation_and_checkout_discount_disagree :
    cart_get_total scopedState.cart_items = 30 ∧
    (resolve_validate_promotion [scopedPromotion] 0 "SCOPE10" 30 none).valid = true ∧
    (resolve_validate_promotion [scopedPromotion] 0 "SCOPE10" 30 none).discount_amount = 3 ∧
    (scopedRun.2.toOption.map fun o => (o.discount_amount, o.total)) = some (1, 29) := by
  refine ⟨?_, ?_, ?_, ?_⟩ <;>
    norm_num +decide [scopedRun, scopedState, scopedDB, scopedInput, scopedPromotion,
      create_order, initial_order, create_order_commit, delete_created_order,
      order_item_of_cart_item, cart_get_total, CartItem.get_subtotal,
      resolve_validate_promotion, Promotion.calculate_discount, Promotion.is_valid,
      Promotion.discountable_amount, Promotion.item_discountable, optListTruthy,
      lowerStr, optQTruthy, optNatTruthy, List.mapM, List.mapM.loop, Except.toOption]

/-- **C4 counterexample**.  The claimed bound `discount ≤ discountable_base`
fails for a currently-valid percentage promotion whose value exceeds 100%:
at 150% with subtotal 10 (non-negative) and delivery fee 0, the code returns a
discount of 15, which exceeds the base of 10. -/
theorem c4_counterexample_percentage_over_100 :
    overPromotion.is_valid 0 = true ∧
    (0 : ℚ) ≤ 10 ∧ (0 : ℚ) ≤ 0 ∧
    Promotion.calculate_discount overPromotion 0 10 0 none = 15 ∧
    claimed_discount_base overPromotion 10 0 none = 10 ∧
    ¬ Promotion.calculate_discount overPromotion 0 10 0 none ≤
        claimed_discount_base overPromotion 10 0 none := by
  refine ⟨by decide, by norm_num, by norm_num, ?_, ?_, ?_⟩ <;>
    norm_num +decide [overPromotion, Promotion.calculate_discount, Promotion.is_valid,
      Promotion.discountable_amount, claimed_discount_base, optListTruthy,
      optQTruthy, optNatTruthy]

/-- **C5 counterexample**.  A checkout of a combo cart line whose add-time
included-items snapshot recorded "Chips" — while the product's included items
have since been changed to "Salad" — produces an OrderItem whose
`included_items` is `["Salad"]`: the snapshot is re-read from the *current*
product row, not copied from the cart line as the claim states. -/
theorem c5_counterexample_snapshot_reread_from_product :
    comboState.cart_items.map
        (fun ci => (ci.include_combo_items, ci.selected_included_items.map (·.name)))
      = [(true, ["Chips"])] ∧
    (comboRun.2.toOption.map fun o => o.items.map fun oi => (oi.is_combo, oi.included_items))
      = some [(true, ["Salad"])] := by
  refine ⟨by decide, ?_⟩
  norm_num +decide [comboRun, comboState, comboDB, create_order, initial_order,
    create_order_commit, delete_created_order, order_item_of_cart_item,
    cart_get_total, CartItem.get_subtotal, lowerStr, optQTruthy,
    List.mapM, List.mapM.loop, Except.toOption]

/-- **C8 counterexample**.  For a promotion that is both inactive and not yet
started, the public validation query reports "not yet started", not
"inactive": the claimed check order (inactive before not-yet-started) does not
match the code, which re-derives the failure message window-first. -/
theorem c8_counterexample_inactive_reported_as_not_started :
    inactiveFuturePromotion.is_active = false ∧
    (0 : ℤ) < inactiveFuturePromotion.valid_from ∧
    (resolve_validate_promotion [inactiveFuturePromotion] 0 "LATER" 50 none).message
      = "This promotion hasn't started yet" := by
  refine ⟨by decide, by decide, ?_⟩
  norm_num +decide [resolve_validate_promotion, inactiveFuturePromotion,
    Promotion.is_valid, lowerStr, optQTruthy, optNatTruthy]

/-- **C8 amended**.  The public validation query always returns a structured
result (it is a total function of its inputs) equal to the spec-side
classifier that derives the failure state in the order not-found →
not-yet-started → expired → usage-exhausted → inactive → below-minimum →
valid.  (The claim's order, with inactive second, does not hold — see the
counterexample — but this amended order does.) -/
theorem resolve_validate_promotion_reported_state_order
    (promotions : List Promotion) (now : ℤ) (code : String) (subtotal : ℚ)
    (delivery_fee : Option ℚ) :
    resolve_validate_promotion promotions now code subtotal delivery_fee =
      validate_promotion_spec promotions now code subtotal delivery_fee := by
  unfold resolve_validate_promotion validate_promotion_spec
  cases promotions.find? (fun p => lowerStr p.code == lowerStr code) with
  | none => rfl
  | some p =>
    simp only [Promotion.is_valid]
    by_cases h1 : now < p.valid_from <;>
      by_cases h2 : p.valid_until < now <;>
        by_cases h3 : (optNatTruthy p.usage_limit &&
          decide (p.usage_limit.getD 0 ≤ p.times_used)) = true <;>
          by_cases h4 : p.is_active <;>
            simp [h1, h2, h3, h4]

/-- Filtering a fresh order number back out of the appended order table
restores the original table. -/
theorem filter_fresh_append (orders : List Order) (o : Order)
    (hfresh : ∀ x ∈ orders, x.order_number ≠ o.order_number) :
    (orders ++ [o]).filter (fun x => x.order_number != o.order_number) = orders := by
  rw [List.filter_append]
  have h1 : (orders.filter fun x => x.order_number != o.order_number) = orders :=
    List.filter_eq_self.mpr fun a ha => by
      simpa [bne_iff_ne] using hfresh a ha
  have h2 : ([o].filter fun x => x.order_number != o.order_number) = [] := by
    simp [List.filter_cons]
  rw [h1, h2, List.append_nil]

/-- Deleting the just-created order restores the whole store state. -/
theorem delete_restores (st : StoreState) (order_number : String)
    (hfresh : ∀ x ∈ st.orders, x.order_number ≠ order_number) (o : Order)
    (ho : o.order_number = order_number) :
    delete_created_order { st with orders := st.orders ++ [o] } order_number = st := by
  subst ho
  unfold delete_created_order
  rw [filter_fresh_append st.orders o hfresh]

set_option maxHeartbeats 1600000 in
/-- **C3**.  Any failed checkout — in particular one rejected because the
supplied promotion code is unknown, not currently valid, or under-minimum —
leaves the store state unchanged: no Order (hence no OrderItems) from the
attempt survives (the code deletes the just-created row before raising), the
cart lines are untouched, and the promotion table (including every
`times_used` counter) is unchanged.  `hfresh` is the freshness of the
generated order number, guaranteed by the caller's uniqueness loop. -/
theorem create_order_error_leaves_state_unchanged
    (db : CatalogDB) (now : ℤ) (order_number : String) (st : StoreState)
    (input : CreateOrderInput)
    (hfresh : ∀ o ∈ st.orders, o.order_number ≠ order_number)
    (e : String)
    (hrun : (create_order db now order_number st input).2 = Except.error e) :
    (create_order db now order_number st input).1 = st := by
  have hcases : (∃ o, (create_order db now order_number st input).2 = Except.ok o) ∨
      (create_order db now order_number st input).1 = st := by
    simp only [create_order]
    split
    · exact Or.inr rfl
    · split
      · exact Or.inr rfl
      · split
        · exact Or.inr rfl
        · split
          · exact Or.inr rfl
          · split
            · exact Or.inl ⟨_, rfl⟩
            · split
              · exact Or.inl ⟨_, rfl⟩
              · split
                · exact Or.inr (delete_restores st order_number hfresh _ rfl)
                · split
                  · split
                    · exact Or.inr (delete_restores st order_number hfresh _ rfl)
                    · exact Or.inl ⟨_, rfl⟩
                  · exact Or.inr (delete_restores st order_number hfresh _ rfl)
  rcases hcases with ⟨o, hok⟩ | hst
  · rw [hok] at hrun
    exact absurd hrun (by simp)
  · exact hst

/-- Witness for checkout atomicity: a checkout with an unknown promotion code
over the tracked-product cart leaves the state exactly as it was. -/
theorem create_order_error_witness :
    (create_order trackedDB 0 "ORD-20260101-AAAA" trackedState
      { order_type := "pickup", promotion_code := some "NOPE" }).1 = trackedState :=
  create_order_error_leaves_state_unchanged trackedDB 0 "ORD-20260101-AAAA" trackedState
    { order_type := "pickup", promotion_code := some "NOPE" }
    (by simp [trackedState]) "Invalid promotion code"
    (by
      norm_num +decide [trackedState, trackedDB, trackedCartItem, create_order,
        initial_order, create_order_commit, delete_created_order,
        order_item_of_cart_item, cart_get_total, CartItem.get_subtotal, lowerStr,
        optQTruthy, List.mapM, List.mapM.loop])

/-- A per-item discountable amount is non-negative when the item's price
components are. -/
theorem item_discountable_nonneg (p : Promotion) (item : OrderItem)
    (hunit : 0 ≤ item.unit_price)
    (htop : ∀ t ∈ item.selected_toppings, 0 ≤ t.price) :
    0 ≤ p.item_discountable item := by
  unfold Promotion.item_discountable
  have hq : (0 : ℚ) ≤ (item.quantity : ℚ) := Nat.cast_nonneg _
  have hsum : (0 : ℚ) ≤ (item.selected_toppings.map (·.price)).sum := by
    apply List.sum_nonneg
    intro x hx
    obtain ⟨t, ht, rfl⟩ := List.mem_map.mp hx
    exact htop t ht
  split
  · apply add_nonneg
    · split
      · exact mul_nonneg hunit hq
      · exact le_refl 0
    · split
      · exact mul_nonneg hsum hq
      · exact le_refl 0
  · exact le_refl 0

/-- The discountable base computed by `calculate_discount` is non-negative
when the subtotal and the item components are. -/
theorem discountable_amount_nonneg (p : Promotion) (subtotal : ℚ)
    (order_items : Option (List OrderItem)) (hsub : 0 ≤ subtotal)
    (hitems : ∀ item ∈ order_items.getD [], 0 ≤ item.unit_price ∧
      ∀ t ∈ item.selected_toppings, 0 ≤ t.price) :
    0 ≤ p.discountable_amount subtotal order_items := by
  unfold Promotion.discountable_amount
  split
  · split
    · exact hsub
    · apply List.sum_nonneg
      intro x hx
      obtain ⟨item, hmem, rfl⟩ := List.mem_map.mp hx
      exact item_discountable_nonneg p item (hitems item hmem).1 (hitems item hmem).2
  · exact hsub

/-- Reduction of `calculate_discount` once the validity and minimum-order
checks pass. -/
theorem calculate_discount_main_eq (p : Promotion) (now : ℤ) (s f : ℚ)
    (items : Option (List OrderItem)) (hv : p.is_valid now = true)
    (hm : (optQTruthy p.minimum_order_amount &&
      decide (s < p.minimum_order_amount.getD 0)) = false) :
    p.calculate_discount now s f items =
      (if p.discount_type == DiscountType.free_delivery then f
       else
        match p.discount_type with
        | DiscountType.percentage =>
          if optQTruthy p.maximum_discount then
            min (p.discountable_amount s items * (p.discount_value / 100))
              (p.maximum_discount.getD 0)
          else p.discountable_amount s items * (p.discount_value / 100)
        | DiscountType.fixed => min p.discount_value (p.discountable_amount s items)
        | DiscountType.free_delivery => 0) := by
  unfold Promotion.calculate_discount
  rw [hv, hm]
  simp

/-- **C4 amended**.  The claimed bounds hold once the promotion's numeric
fields are themselves in range — which the code nowhere enforces, hence the
counterexample: for a currently-valid promotion with non-negative discount
value, a percentage value of at most 100, and a non-negative cap, the
discount is between 0 and the discountable base (the full subtotal, the
delivery fee for free-delivery, or the restricted per-item sum), and for the
fixed kind — when the subtotal also meets the promotion's minimum —
the discount equals `min value base` exactly. -/
theorem calculate_discount_bounds (p : Promotion) (now : ℤ)
    (subtotal delivery_fee : ℚ) (order_items : Option (List OrderItem))
    (hsub : 0 ≤ subtotal) (hfee : 0 ≤ delivery_fee)
    (hval : 0 ≤ p.discount_value)
    (hperc : p.discount_type = DiscountType.percentage → p.discount_value ≤ 100)
    (hmax : ∀ m, p.maximum_discount = some m → 0 ≤ m)
    (hitems : ∀ item ∈ order_items.getD [], 0 ≤ item.unit_price ∧
      ∀ t ∈ item.selected_toppings, 0 ≤ t.price) :
    0 ≤ p.calculate_discount now subtotal delivery_fee order_items ∧
    p.calculate_discount now subtotal delivery_fee order_items ≤
      claimed_discount_base p subtotal delivery_fee order_items ∧
    (p.discount_type = DiscountType.fixed → p.is_valid now = true →
      (optQTruthy p.minimum_order_amount = true →
        p.minimum_order_amount.getD 0 ≤ subtotal) →
      p.calculate_discount now subtotal delivery_fee order_items =
        min p.discount_value (p.discountable_amount subtotal order_items)) := by
  have hbase : 0 ≤ p.discountable_amount subtotal order_items :=
    discountable_amount_nonneg p subtotal order_items hsub hitems
  have hbase0 : 0 ≤ claimed_discount_base p subtotal delivery_fee order_items := by
    unfold claimed_discount_base
    split
    · exact hfee
    · exact hbase
  cases hv : p.is_valid now with
  | false =>
    refine ⟨?_, ?_, ?_⟩
    · simp [Promotion.calculate_discount, hv]
    · simp [Promotion.calculate_discount, hv]
      exact hbase0
    · intro _ hvalid _
      exact absurd hvalid (by simp [hv])
  | true =>
    cases hm : (optQTruthy p.minimum_order_amount &&
        decide (subtotal < p.minimum_order_amount.getD 0)) with
    | true =>
      refine ⟨?_, ?_, ?_⟩
      · simp [Promotion.calculate_discount, hv, hm]
      · simp [Promotion.calculate_discount, hv, hm]
        exact hbase0
      · intro _ _ hminle
        rw [Bool.and_eq_true] at hm
        have hlt := of_decide_eq_true hm.2
        have hle := hminle hm.1
        linarith
    | false =>
      rw [calculate_discount_main_eq p now subtotal delivery_fee order_items hv hm]
      cases hdt : p.discount_type with
      | free_delivery =>
        refine ⟨?_, ?_, ?_⟩
        · simp [hdt]
          exact hfee
        · simp [claimed_discount_base, hdt]
        · intro hfix _ _
          cases hfix
      | percentage =>
        have hv100 : p.discount_value / 100 ≤ 1 := by
          rw [div_le_one (by norm_num : (0:ℚ) < 100)]
          exact hperc hdt
        have hd0 : 0 ≤ p.discountable_amount subtotal order_items * (p.discount_value / 100) :=
          mul_nonneg hbase (div_nonneg hval (by norm_num))
        have hdle : p.discountable_amount subtotal order_items * (p.discount_value / 100) ≤
            p.discountable_amount subtotal order_items :=
          mul_le_of_le_one_right hbase hv100
        have hclaim : claimed_discount_base p subtotal delivery_fee order_items =
            p.discountable_amount subtotal order_items := by
          simp [claimed_discount_base, hdt]
        cases hcap : p.maximum_discount with
        | none =>
          refine ⟨?_, ?_, ?_⟩
          · simp [hdt, hcap, optQTruthy]
            exact hd0
          · simp [hdt, hcap, optQTruthy, hclaim]
            exact hdle
          · intro hfix _ _
            cases hfix
        | some m =>
          have hm0 : 0 ≤ m := hmax m hcap
          refine ⟨?_, ?_, ?_⟩
          · by_cases hmz : m = 0
            · simp [hdt, hcap, optQTruthy, hmz]
              exact hd0
            · simp [hdt, hcap, optQTruthy, hmz]
              exact ⟨hd0, hm0⟩
          · by_cases hmz : m = 0
            · simp [hdt, hcap, optQTruthy, hmz, hclaim]
              exact hdle
            · simp [hdt, hcap, optQTruthy, hmz, hclaim]
              exact Or.inl hdle
          · intro hfix _ _
            cases hfix
      | fixed =>
        refine ⟨?_, ?_, ?_⟩
        · simp [hdt]
          exact ⟨hval, hbase⟩
        · simp [claimed_discount_base, hdt]
        · intro _ _ _
          simp [hdt]

/-- Witness for the amended discount bounds at the spec's SAVE10 scenario
(10% off, $20 minimum, $5 cap, subtotal $60, no delivery fee). -/
theorem calculate_discount_bounds_witness :
    0 ≤ Promotion.calculate_discount save10Promotion 0 60 0 none ∧
    Promotion.calculate_discount save10Promotion 0 60 0 none ≤
      claimed_discount_base save10Promotion 60 0 none ∧
    (save10Promotion.discount_type = DiscountType.fixed →
      save10Promotion.is_valid 0 = true →
      (optQTruthy save10Promotion.minimum_order_amount = true →
        save10Promotion.minimum_order_amount.getD 0 ≤ 60) →
      Promotion.calculate_discount save10Promotion 0 60 0 none =
        min save10Promotion.discount_value
          (Promotion.discountable_amount save10Promotion 60 none)) :=
  calculate_discount_bounds save10Promotion 0 60 0 none (by norm_num) (by norm_num)
    (by norm_num [save10Promotion]) (fun _ => by norm_num [save10Promotion])
    (fun m hm => by
      simp only [save10Promotion, Option.some.injEq] at hm
      rw [← hm]
      norm_num)
    (fun item h => by simp at h)

/-- `List.mapM` over `Option` relates input and output pointwise. -/
theorem mapM_option_forall2 {α β : Type} (f : α → Option β) :
    ∀ (l : List α) (l2 : List β), l.mapM f = some l2 →
      List.Forall₂ (fun a b => f a = some b) l l2 := by
  intro l
  induction l with
  | nil =>
    intro l2 h
    simp only [List.mapM_nil, pure, Option.some.injEq] at h
    rw [← h]
    exact List.Forall₂.nil
  | cons a l ih =>
    intro l2 h
    rw [List.mapM_cons] at h
    cases hfa : f a with
    | none =>
      rw [hfa] at h
      simp at h
    | some b =>
      rw [hfa] at h
      cases hml : l.mapM f with
      | none =>
        rw [hml] at h
        simp at h
      | some bs =>
        rw [hml] at h
        simp only [Option.bind_eq_bind, Option.some_bind, pure, Option.some.injEq] at h
        rw [← h]
        exact List.Forall₂.cons hfa (ih bs hml)

/-- A successful checkout's order items are exactly the per-line snapshots. -/
theorem create_order_ok_items
    (db : CatalogDB) (now : ℤ) (order_number : String) (st : StoreState)
    (input : CreateOrderInput) (order : Order)
    (hrun : (create_order db now order_number st input).2 = Except.ok order) :
    st.cart_items.mapM (order_item_of_cart_item db) = some order.items := by
  simp only [create_order] at hrun
  split at hrun
  · simp at hrun
  · split at hrun
    · simp at hrun
    · split at hrun
      · simp at hrun
      · split at hrun
        · simp at hrun
        · rename_i order_items hmap
          rw [hmap]
          split at hrun
          · simp only [create_order_commit, Except.ok.injEq] at hrun
            rw [← hrun]
            rfl
          · split at hrun
            · simp only [create_order_commit, Except.ok.injEq] at hrun
              rw [← hrun]
              rfl
            · split at hrun
              · simp at hrun
              · split at hrun
                · split at hrun
                  · simp at hrun
                  · simp only [create_order_commit, Except.ok.injEq] at hrun
                    rw [← hrun]
                    rfl
                · simp at hrun

/-- **C5 amended**.  Each OrderItem created by a successful checkout snapshots
the product row *as it is at checkout time*: the product name, the combo flag
(`product.is_combo`, not the cart line's combo choice), and the included-item
names (re-read from the product's current `included_items`, not the cart
line's add-time snapshot) come from the current product, while the toppings,
the frozen unit price, and the quantity are copied from the cart line. -/
theorem create_order_items_snapshot_current_product
    (db : CatalogDB) (now : ℤ) (order_number : String) (st : StoreState)
    (input : CreateOrderInput) (order : Order)
    (hrun : (create_order db now order_number st input).2 = Except.ok order) :
    List.Forall₂ (fun (ci : CartItem) (oi : OrderItem) =>
      ∃ p : Product, db.products.find? (fun q => q.id == ci.product_id) = some p ∧
        oi.product_name = p.name ∧
        oi.is_combo = p.is_combo ∧
        oi.included_items = p.included_items.map IncludedItem.name ∧
        oi.selected_toppings = ci.selected_toppings ∧
        oi.unit_price = ci.unit_price ∧
        oi.quantity = ci.quantity)
      st.cart_items order.items := by
  have hmapm := create_order_ok_items db now order_number st input order hrun
  have hf2 := mapM_option_forall2 (order_item_of_cart_item db) st.cart_items order.items hmapm
  refine hf2.imp ?_
  intro ci oi h
  unfold order_item_of_cart_item at h
  cases hp : db.products.find? (fun q => q.id == ci.product_id) with
  | none =>
    rw [hp] at h
    simp at h
  | some p =>
    rw [hp, Option.map_some'] at h
    rw [Option.some.injEq] at h
    subst h
    exact ⟨p, rfl, rfl, rfl, rfl, rfl, rfl, rfl⟩

/-- Witness for the amended snapshot property: the combo-cart checkout. -/
theorem create_order_items_snapshot_witness :
    List.Forall₂ (fun (ci : CartItem) (oi : OrderItem) =>
      ∃ p : Product, comboDB.products.find? (fun q => q.id == ci.product_id) = some p ∧
        oi.product_name = p.name ∧
        oi.is_combo = p.is_combo ∧
        oi.included_items = p.included_items.map IncludedItem.name ∧
        oi.selected_toppings = ci.selected_toppings ∧
        oi.unit_price = ci.unit_price ∧
        oi.quantity = ci.quantity)
      comboState.cart_items comboOrder.items :=
  create_order_items_snapshot_current_product comboDB 0 "ORD-20260101-CCCC" comboState
    { order_type := "pickup" } comboOrder (by
      norm_num +decide [comboRun, comboState, comboDB, comboOrder, create_order,
        initial_order, create_order_commit, delete_created_order, order_item_of_cart_item,
        cart_get_total, CartItem.get_subtotal, lowerStr, optQTruthy,
        List.mapM, List.mapM.loop, Except.toOption])

/-- The low-stock check never touches the stock row itself. -/
theorem check_low_stock_stock_item (now : ℤ) (ist : InventoryState) :
    (check_low_stock now ist).stock_item = ist.stock_item := by
  unfold check_low_stock
  split
  · split <;> rfl
  · rfl

/-- The stock quantity after an adjustment on a tracked product is the clamped
`max 0 (before + change)`. -/
theorem adjust_stock_quantity (now : ℤ) (ist : InventoryState) (qc : ℤ)
    (mt : MovementType) (ref nts : String) :
    (adjust_stock now true ist qc mt ref nts).1.stock_item.quantity =
      max 0 (ist.stock_item.quantity + qc) := by
  unfold adjust_stock
  simp [check_low_stock_stock_item]

/-- Every inventory helper leaves a non-negative quantity on a tracked
product. -/
theorem apply_stock_op_quantity_nonneg (now : ℤ) (ist : InventoryState) (op : StockOp) :
    0 ≤ (apply_stock_op now true ist op).1.stock_item.quantity := by
  cases op <;>
    simp only [apply_stock_op, sell_stock, receive_stock, return_stock,
      adjust_stock_quantity] <;>
    exact le_max_left 0 _

/-- **C6**.  On a tracked product, the stock quantity never goes below 0
across any sequence of `adjust`/`sell`/`receive`/`return` calls, and the
movement recorded by each adjustment has `quantity_before` equal to the prior
quantity and `quantity_after` equal to `max 0 (before + change)`, which is
also the stock quantity written. -/
theorem stock_floor_invariant (now : ℤ) (ist : InventoryState) (ops : List StockOp)
    (h0 : 0 ≤ ist.stock_item.quantity) :
    0 ≤ (run_stock_ops now true ist ops).stock_item.quantity ∧
    ∀ (qc : ℤ) (mt : MovementType) (ref nts : String) (m : StockMovement),
      (adjust_stock now true ist qc mt ref nts).2 = some m →
      m.quantity_before = ist.stock_item.quantity ∧
      m.quantity_after = max 0 (ist.stock_item.quantity + qc) ∧
      (adjust_stock now true ist qc mt ref nts).1.stock_item.quantity = m.quantity_after := by
  constructor
  · induction ops generalizing ist with
    | nil => exact h0
    | cons op ops ih =>
      rw [run_stock_ops, List.foldl_cons]
      exact ih _ (apply_stock_op_quantity_nonneg now ist op)
  · intro qc mt ref nts m hm
    have hlit : m =
        { stock_product_id := ist.stock_item.product_id
          movement_type := mt
          quantity_change := qc
          quantity_before := ist.stock_item.quantity
          quantity_after := max 0 (ist.stock_item.quantity + qc)
          reference := ref
          notes := nts } := by
      unfold adjust_stock at hm
      simp only [Bool.not_true, Bool.false_eq_true, if_false, Option.some.injEq] at hm
      exact hm.symm
    subst hlit
    exact ⟨rfl, rfl, adjust_stock_quantity now ist qc mt ref nts⟩

/-- Witness for the stock floor at the spec's clamping scenario: receive 10,
then sell 15 — quantity ends at 0, not −5. -/
theorem stock_floor_invariant_witness :
    0 ≤ (run_stock_ops 0 true (init_inventory 1 10)
      [StockOp.receive 10 "", StockOp.sell 15 "ORDER-001"]).stock_item.quantity ∧
    ∀ (qc : ℤ) (mt : MovementType) (ref nts : String) (m : StockMovement),
      (adjust_stock 0 true (init_inventory 1 10) qc mt ref nts).2 = some m →
      m.quantity_before = (init_inventory 1 10).stock_item.quantity ∧
      m.quantity_after = max 0 ((init_inventory 1 10).stock_item.quantity + qc) ∧
      (adjust_stock 0 true (init_inventory 1 10) qc mt ref nts).1.stock_item.quantity =
        m.quantity_after :=
  stock_floor_invariant 0 (init_inventory 1 10)
    [StockOp.receive 10 "", StockOp.sell 15 "ORDER-001"] (by norm_num [init_inventory])

/-- After the low-stock check, the number of ACTIVE alerts is 1 or 0 according
to whether the stock is at or below the reorder level — provided at most one
alert was active beforehand. -/
theorem check_low_stock_alert_count (now : ℤ) (ist : InventoryState)
    (h : active_alert_count ist ≤ 1) :
    active_alert_count (check_low_stock now ist) =
      if ist.stock_item.quantity ≤ ist.stock_item.reorder_level then 1 else 0 := by
  by_cases hlow : ist.stock_item.quantity ≤ ist.stock_item.reorder_level
  · rw [if_pos hlow]
    unfold check_low_stock
    rw [if_pos hlow]
    by_cases hact : (ist.alerts.find? (fun a => a.status == AlertStatus.ACTIVE)).isSome
    · rw [if_pos hact]
      have h1 : 1 ≤ active_alert_count ist := by
        rw [Option.isSome_iff_exists] at hact
        obtain ⟨a, ha⟩ := hact
        have hpa := List.find?_some ha
        have hmem : a ∈ ist.alerts.filter (fun a => a.status == AlertStatus.ACTIVE) :=
          List.mem_filter.mpr ⟨List.mem_of_find?_eq_some ha, hpa⟩
        exact List.length_pos_of_mem hmem
      omega
    · rw [if_neg hact]
      have hnone : ist.alerts.find? (fun a => a.status == AlertStatus.ACTIVE) = none :=
        Option.not_isSome_iff_eq_none.mp hact
      have h0 : ist.alerts.filter (fun a => a.status == AlertStatus.ACTIVE) = [] := by
        rw [List.filter_eq_nil_iff]
        intro a ha
        exact (List.find?_eq_none.mp hnone) a ha
      unfold active_alert_count
      simp [List.filter_append, h0]
  · rw [if_neg hlow]
    unfold check_low_stock
    rw [if_neg hlow]
    unfold active_alert_count
    rw [List.length_eq_zero, List.filter_eq_nil_iff]
    intro a ha
    obtain ⟨b, _, rfl⟩ := List.mem_map.mp ha
    by_cases hbs : (b.status == AlertStatus.ACTIVE) = true
    · simp [hbs]
    · simp [hbs]

/-- The low-stock check stamps `resolved_at` on everything it resolves, so
the "every resolved alert carries a timestamp" invariant is preserved. -/
theorem check_low_stock_stamp (now : ℤ) (ist : InventoryState)
    (h : ∀ a ∈ ist.alerts, a.status = AlertStatus.RESOLVED → a.resolved_at ≠ none) :
    ∀ a ∈ (check_low_stock now ist).alerts,
      a.status = AlertStatus.RESOLVED → a.resolved_at ≠ none := by
  unfold check_low_stock
  split
  · split
    · exact h
    · intro a ha
      rw [List.mem_append] at ha
      rcases ha with ha | ha
      · exact h a ha
      · simp only [List.mem_singleton] at ha
        subst ha
        intro hs
        cases hs
  · intro a ha
    obtain ⟨b, hb, rfl⟩ := List.mem_map.mp ha
    by_cases hbs : (b.status == AlertStatus.ACTIVE) = true
    · simp [hbs]
    · simp [hbs]
      exact h b hb

/-- The alert state after one adjustment on a tracked product: exactly one
active alert when the new quantity is at or below the reorder level, none
otherwise, and every resolved alert carries a `resolved_at` stamp. -/
theorem adjust_stock_alert_post (now : ℤ) (ist : InventoryState) (qc : ℤ)
    (mt : MovementType) (ref nts : String)
    (hcount : active_alert_count ist ≤ 1)
    (hstamp : ∀ a ∈ ist.alerts, a.status = AlertStatus.RESOLVED → a.resolved_at ≠ none) :
    (active_alert_count (adjust_stock now true ist qc mt ref nts).1 =
      if (adjust_stock now true ist qc mt ref nts).1.stock_item.quantity ≤
          (adjust_stock now true ist qc mt ref nts).1.stock_item.reorder_level
      then 1 else 0) ∧
    ∀ a ∈ (adjust_stock now true ist qc mt ref nts).1.alerts,
      a.status = AlertStatus.RESOLVED → a.resolved_at ≠ none := by
  unfold adjust_stock
  simp only [Bool.not_true, Bool.false_eq_true, if_false]
  constructor
  · rw [check_low_stock_stock_item]
    exact check_low_stock_alert_count now _ hcount
  · exact check_low_stock_stamp now _ hstamp

/-- The alert-state preconditions (at most one active alert; resolved alerts
stamped) are preserved by every inventory call. -/
theorem apply_stock_op_alert_post (now : ℤ) (ist : InventoryState) (op : StockOp)
    (hcount : active_alert_count ist ≤ 1)
    (hstamp : ∀ a ∈ ist.alerts, a.status = AlertStatus.RESOLVED → a.resolved_at ≠ none) :
    (active_alert_count (apply_stock_op now true ist op).1 =
      if (apply_stock_op now true ist op).1.stock_item.quantity ≤
          (apply_stock_op now true ist op).1.stock_item.reorder_level
      then 1 else 0) ∧
    ∀ a ∈ (apply_stock_op now true ist op).1.alerts,
      a.status = AlertStatus.RESOLVED → a.resolved_at ≠ none := by
  cases op <;>
    simp only [apply_stock_op, sell_stock, receive_stock, return_stock] <;>
    exact adjust_stock_alert_post now ist _ _ _ _ hcount hstamp

/-- **C7**.  After any non-empty sequence of inventory calls on a tracked
product — regardless of how many adjustments precede the last one — exactly
one ACTIVE StockAlert exists when the stock is at or below the reorder level
and zero when it is above, and every RESOLVED alert carries a `resolved_at`
stamp.  The hypotheses are the state of a stock item before the calls: at
most one active alert, and all previously resolved alerts stamped (both hold
for the fresh stock row `get_or_create_stock_item` creates). -/
theorem alert_hysteresis (now : ℤ) (ist : InventoryState) (ops : List StockOp)
    (op : StockOp)
    (hcount : active_alert_count ist ≤ 1)
    (hstamp : ∀ a ∈ ist.alerts, a.status = AlertStatus.RESOLVED → a.resolved_at ≠ none) :
    (active_alert_count (run_stock_ops now true ist (ops ++ [op])) =
      if (run_stock_ops now true ist (ops ++ [op])).stock_item.quantity ≤
          (run_stock_ops now true ist (ops ++ [op])).stock_item.reorder_level
      then 1 else 0) ∧
    ∀ a ∈ (run_stock_ops now true ist (ops ++ [op])).alerts,
      a.status = AlertStatus.RESOLVED → a.resolved_at ≠ none := by
  have hpre : ∀ (l : List StockOp) (s : InventoryState),
      active_alert_count s ≤ 1 →
      (∀ a ∈ s.alerts, a.status = AlertStatus.RESOLVED → a.resolved_at ≠ none) →
      active_alert_count (run_stock_ops now true s l) ≤ 1 ∧
      ∀ a ∈ (run_stock_ops now true s l).alerts,
        a.status = AlertStatus.RESOLVED → a.resolved_at ≠ none := by
    intro l
    induction l with
    | nil => exact fun s h1 h2 => ⟨h1, h2⟩
    | cons o l ih =>
      intro s h1 h2
      rw [run_stock_ops, List.foldl_cons]
      have hpost := apply_stock_op_alert_post now s o h1 h2
      refine ih _ ?_ hpost.2
      rw [hpost.1]
      split <;> omega
  have hmid := hpre ops ist hcount hstamp
  have hlast := apply_stock_op_alert_post now (run_stock_ops now true ist ops) op
    hmid.1 hmid.2
  have hfold : run_stock_ops now true ist (ops ++ [op]) =
      (apply_stock_op now true (run_stock_ops now true ist ops) op).1 := by
    unfold run_stock_ops
    rw [List.foldl_append, List.foldl_cons, List.foldl_nil]
  rw [hfold]
  exact hlast

/-- Witness for the alert hysteresis: a fresh tracked stock row, one receipt
of 5 units with reorder level 10. -/
theorem alert_hysteresis_witness :
    (active_alert_count (run_stock_ops 0 true (init_inventory 1 10)
        ([] ++ [StockOp.receive 5 ""])) =
      if (run_stock_ops 0 true (init_inventory 1 10)
            ([] ++ [StockOp.receive 5 ""])).stock_item.quantity ≤
          (run_stock_ops 0 true (init_inventory 1 10)
            ([] ++ [StockOp.receive 5 ""])).stock_item.reorder_level
      then 1 else 0) ∧
    ∀ a ∈ (run_stock_ops 0 true (init_inventory 1 10)
        ([] ++ [StockOp.receive 5 ""])).alerts,
      a.status = AlertStatus.RESOLVED → a.resolved_at ≠ none :=
  alert_hysteresis 0 (init_inventory 1 10) [] (StockOp.receive 5 "")
    (by norm_num [active_alert_count, init_inventory])
    (by simp [init_inventory])

/-- A matching cart line found by `find_matching_cart_item` is one of the
cart's lines. -/
theorem find_matching_cart_item_mem (toppings_db : List Topping)
    (cart_items : List CartItem) (product : Product) (size : Option Size)
    (toppings : List ToppingSnapshot) (include_combo_items : Bool) (item : CartItem)
    (h : find_matching_cart_item toppings_db cart_items product size toppings
      include_combo_items = some item) :
    item ∈ cart_items := by
  unfold find_matching_cart_item at h
  exact (List.mem_filter.mp (List.mem_of_find?_eq_some h)).1

/-- **C10**.  Every successful `AddToCart` either appends a brand-new line, or
merges into an existing line changing only its `quantity` (incremented by the
added quantity) and its `unit_price`: the merged line keeps its original
toppings snapshot (with the prices frozen at the original add), its
included-items snapshot, its size, and its combo flag, and every other cart
line is left untouched. -/
theorem add_to_cart_merge_frame
    (db : CatalogDB) (now : ℤ) (cart_items : List CartItem) (next_item_id : ℕ)
    (product_id quantity : ℕ) (size_id : Option ℕ) (topping_ids : List ℕ)
    (include_combo_items : Bool) (r : AddToCartResult)
    (hr : add_to_cart db now cart_items next_item_id product_id quantity size_id
      topping_ids include_combo_items = Except.ok r) :
    (r.cart_items = cart_items ++ [r.cart_item] ∧ r.cart_item.id = next_item_id) ∨
    (∃ existing ∈ cart_items,
      r.cart_item.id = existing.id ∧
      r.cart_item.size = existing.size ∧
      r.cart_item.selected_toppings = existing.selected_toppings ∧
      r.cart_item.selected_included_items = existing.selected_included_items ∧
      r.cart_item.include_combo_items = existing.include_combo_items ∧
      r.cart_item.quantity = existing.quantity + quantity ∧
      r.cart_items = cart_items.map fun it =>
        if it.id == existing.id then r.cart_item else it) := by
  simp only [add_to_cart] at hr
  split at hr
  · simp at hr
  · split at hr
    · simp at hr
    · split at hr
      · simp at hr
      · split at hr
        · simp at hr
        · split at hr
          · rename_i existing_item hfm
            rw [Except.ok.injEq] at hr
            subst hr
            exact Or.inr ⟨existing_item,
              find_matching_cart_item_mem _ _ _ _ _ _ _ hfm,
              rfl, rfl, rfl, rfl, rfl, rfl, rfl⟩
          · rw [Except.ok.injEq] at hr
            subst hr
            exact Or.inl ⟨rfl, rfl⟩

/-- Witness for the merge frame property: the scenario's merging second add. -/
theorem add_to_cart_merge_frame_witness :
    (scenarioResult2.cart_items = scenarioItems1 ++ [scenarioResult2.cart_item] ∧
      scenarioResult2.cart_item.id = 2) ∨
    (∃ existing ∈ scenarioItems1,
      scenarioResult2.cart_item.id = existing.id ∧
      scenarioResult2.cart_item.size = existing.size ∧
      scenarioResult2.cart_item.selected_toppings = existing.selected_toppings ∧
      scenarioResult2.cart_item.selected_included_items =
        existing.selected_included_items ∧
      scenarioResult2.cart_item.include_combo_items = existing.include_combo_items ∧
      scenarioResult2.cart_item.quantity = existing.quantity + 1 ∧
      scenarioResult2.cart_items = scenarioItems1.map fun it =>
        if it.id == existing.id then scenarioResult2.cart_item else it) :=
  add_to_cart_merge_frame scenarioDB 0 scenarioItems1 2 1 1 (some 1) [1] false
    scenarioResult2 (by
      norm_num +decide [scenarioResult2, scenarioAdd2, scenarioItems1, scenarioAdd1,
        scenarioDB, add_to_cart, format_toppings_for_storage, calculate_item_price,
        Product.get_current_base_price, Product.is_on_sale, optQTruthy,
        find_matching_cart_item, toppings_match, List.insertionSort, List.orderedInsert,
        List.filterMap_cons, List.filterMap_nil, Except.toOption])

end PizzaStore
